import Mathlib

/-!
Shallow embedding of `ignite/contrib/handlers/trains_logger.py`.

The module is an adapter between an event-driven training loop and the
`trains` experiment-tracking SDK.  Python values flowing through the
handlers are modelled by `PyVal`; tensors by lists of rationals; the
side effects of a handler invocation (vendor SDK report calls and
warnings) by a list of `LogEvent`; raised exceptions by `PyError`
through `Except`.  Each handler's `__call__` is translated into a pure
function from the handler's state and its inputs to the updated state
paired with the emitted events (the Python bodies never assign to
`self`, so the state component is returned unchanged).
-/

namespace IgniteTrains

/-- A dynamically typed Python value as seen by the handlers:
integers, floats (modelled as rationals), strings, `None`,
and anything else identified by its type name. -/
inductive PyVal where
  | pyInt (n : Int)
  | pyFloat (q : Rat)
  | pyStr (s : String)
  | pyNone
  | pyOther (typeName : String)
deriving DecidableEq, Repr

/-- The name of a value's Python type, used in warning and error messages. -/
def PyVal.typeName : PyVal → String
  | .pyInt _ => "int"
  | .pyFloat _ => "float"
  | .pyStr _ => "str"
  | .pyNone => "NoneType"
  | .pyOther t => t

/-- `isinstance(value, (float, int))`. -/
def PyVal.isNumber : PyVal → Bool
  | .pyInt _ => true
  | .pyFloat _ => true
  | _ => false

/-- Python `float(value)`: succeeds on numbers, fails otherwise. -/
def PyVal.toFloat : PyVal → Option Rat
  | .pyInt n => some (n : Rat)
  | .pyFloat q => some q
  | _ => none

/-- A tensor, abstracted to its flat list of entries. -/
structure Tensor where
  vals : List Rat
deriving DecidableEq, Repr

/-- A named model parameter: its value tensor `data` and its
gradient `grad` (`None` when no gradient has been computed). -/
structure Param where
  data : Tensor
  grad : Option Tensor
deriving DecidableEq, Repr

/-- Exceptions the handlers can raise. -/
inductive PyError where
  | runtimeError (msg : String)
  | typeError (msg : String)
  | keyError (key : String)
deriving DecidableEq, Repr

instance exceptDecEq {ε α : Type} [DecidableEq ε] [DecidableEq α] :
    DecidableEq (Except ε α)
  | .error e, .error f =>
      if h : e = f then isTrue (by rw [h])
      else isFalse (by intro hh; cases hh; exact h rfl)
  | .error _, .ok _ => isFalse (by intro hh; cases hh)
  | .ok _, .error _ => isFalse (by intro hh; cases hh)
  | .ok a, .ok b =>
      if h : a = b then isTrue (by rw [h])
      else isFalse (by intro hh; cases hh; exact h rfl)

/-- The dynamic type of the `logger` argument, for the
`isinstance(logger, TrainsLogger)` checks. -/
inductive LoggerKind where
  | trains
  | other (typeName : String)
deriving DecidableEq, Repr

/-- The observable effects of one handler invocation: vendor SDK
`report_scalar` and `add_histogram` calls and `warnings.warn` calls,
in program order. -/
inductive LogEvent where
  | reportScalar (title series : String) (iteration : Int) (value : PyVal)
  | addHistogram (title series : String) (step : Int) (histData : Tensor)
  | warn (msg : String)
deriving DecidableEq, Repr

/-- Split a character list at the first `'.'`; `none` when absent. -/
def splitAtDot : List Char → Option (List Char × List Char)
  | [] => none
  | c :: cs =>
      if c = '.' then some ([], cs)
      else match splitAtDot cs with
        | none => none
        | some pq => some (c :: pq.1, pq.2)

/-- Python `name.partition(".")` restricted to its first and third
components: the part before the first dot and the part after it
(the whole string and `""` when there is no dot). -/
def partitionDot (s : String) : String × String :=
  match splitAtDot s.data with
  | none => (s, "")
  | some pq => (String.mk pq.1, String.mk pq.2)

/-- `"{}/".format(self.tag) if self.tag else ""`: the optional tag
turned into a title prefix (`None` and the empty string are falsy). -/
def tagPref : Option String → String
  | none => ""
  | some t => if t = "" then "" else t ++ "/"

/-- `OutputHandler.__call__`'s wrong-logger message. -/
def outputWrongLoggerMsg : String :=
  "Handler OutputHandler works only with TrainsLogger"

/-- `OutputHandler.__call__`'s non-integer global step message. -/
def gsTypeMsg (gs : PyVal) : String :=
  "global_step must be int, got " ++ gs.typeName ++
    ". Please check the output of global_step_transform."

/-- `OutputHandler.__call__`'s warning for a non-numeric metric value. -/
def outputMetricWarnMsg (v : PyVal) : String :=
  "TrainsLogger output_handler can not log metrics value type " ++ v.typeName

/-- The state of an `OutputHandler` that the `__call__` body reads:
its `tag`. -/
structure OutputHandlerS where
  tag : String
deriving DecidableEq, Repr

/-- The body of `OutputHandler.__call__`'s loop over
`metrics.items()`: report a numeric value, warn on anything else. -/
def outEvent (tag : String) (gs : Int) (kv : String × PyVal) : LogEvent :=
  if kv.2.isNumber then LogEvent.reportScalar tag kv.1 gs kv.2
  else LogEvent.warn (outputMetricWarnMsg kv.2)

/-- `OutputHandler.__call__`.  `metrics` is the result of
`self._setup_output_metrics(engine)` (a dict, keys in order);
`globalStep` is `self.global_step_transform(engine, event_name)`. -/
def OutputHandlerS.call (h : OutputHandlerS) (metrics : List (String × PyVal))
    (lk : LoggerKind) (globalStep : PyVal) :
    OutputHandlerS × Except PyError (List LogEvent) :=
  (h,
    if lk ≠ LoggerKind.trains then
      Except.error (PyError.runtimeError outputWrongLoggerMsg)
    else
      match globalStep with
      | .pyInt gs => Except.ok (metrics.map (outEvent h.tag gs))
      | _ => Except.error (PyError.typeError (gsTypeMsg globalStep)))

/-- One entry of `optimizer.param_groups`: a dict from parameter
names to values. -/
structure ParamGroup where
  entries : List (String × PyVal)
deriving DecidableEq, Repr

/-- Python dict subscript `pg[k]`, as an `Option`. -/
def ParamGroup.lookup (pg : ParamGroup) (k : String) : Option PyVal :=
  (pg.entries.find? fun kv => kv.1 = k).map Prod.snd

/-- An optimizer, reduced to the `param_groups` list the handler reads. -/
structure OptimizerS where
  paramGroups : List ParamGroup

/-- `float(param_group[self.param_name])`: `KeyError` when the key is
missing, `TypeError` when the value is not numeric. -/
def pyFloatOf (pg : ParamGroup) (k : String) : Except PyError Rat :=
  match pg.lookup k with
  | none => Except.error (PyError.keyError k)
  | some v =>
      match v.toFloat with
      | some q => Except.ok q
      | none => Except.error (PyError.typeError
          ("float() argument must be a string or a number, not " ++ v.typeName))

/-- The state of an `OptimizerParamsHandler`. -/
structure OptimizerParamsHandlerS where
  optimizer : OptimizerS
  paramName : String
  tag : Option String

/-- `OptimizerParamsHandler.__call__`'s wrong-logger message. -/
def optimizerWrongLoggerMsg : String :=
  "Handler OptimizerParamsHandler works only with TrainsLogger"

/-- Evaluate `f` over a list left to right, the first raised
exception propagating (the evaluation order of a Python
comprehension). -/
def exceptMapList {α β : Type} (f : α → Except PyError β) : List α → Except PyError (List β)
  | [] => Except.ok []
  | a :: t =>
      match f a with
      | Except.error e => Except.error e
      | Except.ok b =>
          match exceptMapList f t with
          | Except.error e => Except.error e
          | Except.ok bs => Except.ok (b :: bs)

/-- The dict comprehension
`{str(i): float(param_group[self.param_name]) for i, param_group in enumerate(...)}`:
entries in enumeration order, the first failing conversion raising. -/
def optimizerParamsDict (pgs : List ParamGroup) (paramName : String) :
    Except PyError (List (String × Rat)) :=
  exceptMapList
    (fun ipg => (pyFloatOf ipg.2 paramName).map fun q => (toString ipg.1, q))
    pgs.enum

/-- `OptimizerParamsHandler.__call__`.  `globalStep` is
`engine.state.get_event_attrib_value(event_name)`. -/
def OptimizerParamsHandlerS.call (h : OptimizerParamsHandlerS)
    (lk : LoggerKind) (globalStep : Int) :
    OptimizerParamsHandlerS × Except PyError (List LogEvent) :=
  (h,
    if lk ≠ LoggerKind.trains then
      Except.error (PyError.runtimeError optimizerWrongLoggerMsg)
    else
      match optimizerParamsDict h.optimizer.paramGroups h.paramName with
      | .error e => Except.error e
      | .ok params =>
          Except.ok (params.map fun kv =>
            LogEvent.reportScalar (tagPref h.tag ++ h.paramName) kv.1 globalStep
              (PyVal.pyFloat kv.2)))

/-- The state of a `WeightsScalarHandler`: the model's named
parameters, the reduction function with its `__name__`, and the tag. -/
structure WeightsScalarHandlerS where
  model : List (String × Param)
  reduction : Tensor → Rat
  reductionName : String
  tag : Option String

/-- `WeightsScalarHandler.__call__`. -/
def WeightsScalarHandlerS.call (h : WeightsScalarHandlerS)
    (lk : LoggerKind) (globalStep : Int) :
    WeightsScalarHandlerS × Except PyError (List LogEvent) :=
  (h,
    if lk ≠ LoggerKind.trains then
      Except.error (PyError.runtimeError
        "Handler WeightsScalarHandler works only with TrainsLogger")
    else
      Except.ok (h.model.filterMap fun np =>
        match np.2.grad with
        | none => none
        | some _ =>
            let pd := partitionDot np.1
            some (LogEvent.reportScalar
              (tagPref h.tag ++ "weights_" ++ h.reductionName ++ "/" ++ pd.1)
              pd.2 globalStep (PyVal.pyFloat (h.reduction np.2.data)))))

/-- The state of a `WeightsHistHandler`. -/
structure WeightsHistHandlerS where
  model : List (String × Param)
  tag : Option String
deriving DecidableEq, Repr

/-- `WeightsHistHandler.__call__`.  The source passes
`hist_data=p.grad.detach().cpu().numpy()` (the gradient tensor),
not `p.data`. -/
def WeightsHistHandlerS.call (h : WeightsHistHandlerS)
    (lk : LoggerKind) (globalStep : Int) :
    WeightsHistHandlerS × Except PyError (List LogEvent) :=
  (h,
    if lk ≠ LoggerKind.trains then
      Except.error (PyError.runtimeError
        "Handler WeightsHistHandler works only with TrainsLogger")
    else
      Except.ok (h.model.filterMap fun np =>
        match np.2.grad with
        | none => none
        | some g =>
            let pd := partitionDot np.1
            some (LogEvent.addHistogram
              (tagPref h.tag ++ "weights_" ++ pd.1) pd.2 globalStep g)))

/-- The state of a `GradsScalarHandler`. -/
structure GradsScalarHandlerS where
  model : List (String × Param)
  reduction : Tensor → Rat
  reductionName : String
  tag : Option String

/-- `GradsScalarHandler.__call__`.  The source passes
`value=self.reduction(p.data)` (the parameter's value tensor),
not `self.reduction(p.grad)`. -/
def GradsScalarHandlerS.call (h : GradsScalarHandlerS)
    (lk : LoggerKind) (globalStep : Int) :
    GradsScalarHandlerS × Except PyError (List LogEvent) :=
  (h,
    if lk ≠ LoggerKind.trains then
      Except.error (PyError.runtimeError
        "Handler GradsScalarHandler works only with TrainsLogger")
    else
      Except.ok (h.model.filterMap fun np =>
        match np.2.grad with
        | none => none
        | some _ =>
            let pd := partitionDot np.1
            some (LogEvent.reportScalar
              (tagPref h.tag ++ "grads_" ++ h.reductionName ++ "/" ++ pd.1)
              pd.2 globalStep (PyVal.pyFloat (h.reduction np.2.data)))))

/-- The state of a `GradsHistHandler`. -/
structure GradsHistHandlerS where
  model : List (String × Param)
  tag : Option String
deriving DecidableEq, Repr

/-- `GradsHistHandler.__call__`. -/
def GradsHistHandlerS.call (h : GradsHistHandlerS)
    (lk : LoggerKind) (globalStep : Int) :
    GradsHistHandlerS × Except PyError (List LogEvent) :=
  (h,
    if lk ≠ LoggerKind.trains then
      Except.error (PyError.runtimeError
        "Handler GradsHistHandler works only with TrainsLogger")
    else
      Except.ok (h.model.filterMap fun np =>
        match np.2.grad with
        | none => none
        | some g =>
            let pd := partitionDot np.1
            some (LogEvent.addHistogram
              (tagPref h.tag ++ "grads_" ++ pd.1) pd.2 globalStep g)))

/-- The re-raised import failure message of the module (whitespace
normalised). -/
def trainsImportMsg : String :=
  "This contrib module requires trains to be installed. " ++
    "You may install trains using: pip install trains"

/-- `TrainsLogger.set_bypass_mode(bypass)`: `setattr(cls, "_bypass", bypass)`.
The class state is the optional `_bypass` attribute. -/
def pySetBypassMode (_st : Option Bool) (bypass : Bool) : Option Bool :=
  some bypass

/-- `TrainsLogger.bypass_mode()`:
`getattr(cls, "_bypass", bool(os.environ.get("CI")))`.  `ciEnv` is the
value of the environment variable `CI` (`none` when unset); Python's
`bool` on it is false exactly for `None` and the empty string. -/
def pyBypassMode (st : Option Bool) (ciEnv : Option String) : Bool :=
  st.getD (match ciEnv with
    | none => false
    | some s => !(s == ""))

/-- An attribute lookup on the `_Stub` task: `self` for every
attribute except `name` and `id`, which give the empty string. -/
inductive StubAttr where
  | stubSelf
  | strVal (s : String)
deriving DecidableEq, Repr

/-- `_Stub.__getattr__`. -/
def stubGetattr (attr : String) : StubAttr :=
  if attr = "name" ∨ attr = "id" then StubAttr.strVal "" else StubAttr.stubSelf

/-- The externally visible steps of `TrainsLogger.__init__`, in order. -/
inductive InitAction where
  | warnBypass
  | stubTask
  | taskInit
  | getLogger
  | gradHelperInit
deriving DecidableEq, Repr

/-- `TrainsLogger.__init__`: re-raise a missing `trains` import as
`RuntimeError` before anything else; then either install the `_Stub`
task (bypass mode, with a warning) or create the vendor session with
`trains.Task.init`; then fetch the logger and build the gradient
histogram helper. -/
def trainsLoggerInit (trainsImportable : Bool) (st : Option Bool)
    (ciEnv : Option String) : List InitAction × Option PyError :=
  if !trainsImportable then
    ([], some (PyError.runtimeError trainsImportMsg))
  else if pyBypassMode st ciEnv then
    ([InitAction.warnBypass, InitAction.stubTask,
      InitAction.getLogger, InitAction.gradHelperInit], none)
  else
    ([InitAction.taskInit, InitAction.getLogger, InitAction.gradHelperInit], none)

/-- The externally visible steps of `TrainsSaver.__init__`, in order. -/
inductive SaverInitAction where
  | mkTempDir
  | warnTempDir
  | diskSaverInit (dirname : String)
  | currentTask
  | setOutputUri (uri : String)
deriving DecidableEq, Repr

/-- `TrainsSaver.__init__`: `TypeError` on a non-`TrainsLogger` logger,
then re-raise a missing `trains` import as `RuntimeError`, then pick a
directory (a fresh temporary one, with a warning, when `dirname` is
falsy), initialise the `DiskSaver` base, record the current vendor
task, and optionally set its output URI.  The temporary directory name
is timestamp-generated; it is abstracted to `"tmpdir"` here. -/
def trainsSaverInit (loggerIsTrains : Bool) (trainsImportable : Bool)
    (outputUri : Option String) (dirname : Option String) :
    List SaverInitAction × Option PyError :=
  if !loggerIsTrains then
    ([], some (PyError.typeError "logger must be an instance of TrainsLogger"))
  else if !trainsImportable then
    ([], some (PyError.runtimeError trainsImportMsg))
  else
    let dirActions : List SaverInitAction :=
      match dirname with
      | some d =>
          if d = "" then
            [SaverInitAction.mkTempDir, SaverInitAction.warnTempDir,
             SaverInitAction.diskSaverInit "tmpdir"]
          else [SaverInitAction.diskSaverInit d]
      | none =>
          [SaverInitAction.mkTempDir, SaverInitAction.warnTempDir,
           SaverInitAction.diskSaverInit "tmpdir"]
    (dirActions ++ [SaverInitAction.currentTask] ++
      (match outputUri with
       | some u => [SaverInitAction.setOutputUri u]
       | none => []), none)

/-- `os.path.basename`, over `/`-separated paths. -/
def basenameChars (acc : List Char) : List Char → List Char
  | [] => acc.reverse
  | c :: cs => if c = '/' then basenameChars [] cs else basenameChars (c :: acc) cs

/-- `os.path.basename(filename)`. -/
def basenameOf (p : String) : String :=
  String.mk (basenameChars [] p.data)

/-- The externally visible steps of `TrainsSaver.__call__`, in order. -/
inductive SaverAction where
  | localSave (path : String)
  | createOutputModel (savedPath : String) (modelName : String)
deriving DecidableEq, Repr

/-- Modelled from the spec: `DiskSaver.__call__`
(`ignite.handlers.checkpoint`, not under `src/`).  Per the spec,
"Checkpoint saver: an adapter that uploads serialized model state to a
vendor artifact store after a local save" — the base class's call
performs the local save, writing the checkpoint to
`dirname/filename`. -/
def diskSaverCall (dirname filename : String) : List SaverAction :=
  [SaverAction.localSave (dirname ++ "/" ++ filename)]

/-- `TrainsSaver.__call__`: first the local save via
`super().__call__`, then re-raise a missing `trains` import as
`RuntimeError`, then — only when `self._atomic` — upload the saved
file at `os.path.join(self.dirname, filename)` (which exists after the
local save) as an output model named `os.path.basename(filename)`. -/
def trainsSaverCall (trainsImportable : Bool) (atomic : Bool)
    (dirname filename : String) : List SaverAction × Option PyError :=
  let saved := diskSaverCall dirname filename
  if !trainsImportable then
    (saved, some (PyError.runtimeError trainsImportMsg))
  else if atomic then
    let path := dirname ++ "/" ++ filename
    (saved ++ [SaverAction.createOutputModel path (basenameOf filename)], none)
  else
    (saved, none)

/-! ### Theorems -/

/-- A concrete reduction function for concrete inputs: the tensor's
first entry (0 when empty). -/
def firstEntry (t : Tensor) : Rat := t.vals.headD 0

/-- A one-parameter model whose value tensor `[2]` differs from its
gradient tensor `[3]`. -/
def oneParamModel : List (String × Param) :=
  [("w", { data := ⟨[2]⟩, grad := some ⟨[3]⟩ })]

/-- C1: the claim says `GradsScalarHandler.__call__` reports the
reduction of the parameter's gradient tensor; on a parameter with
value `[2]` and gradient `[3]` and the `firstEntry` reduction, the
code reports the scalar `2` — the reduction of the value tensor
`p.data` — under the claimed title and series, while the reduction of
the gradient tensor is `3`.  This evaluates the embedded code at the
failing input. -/
theorem gradsScalar_reports_reduction_of_data :
    (GradsScalarHandlerS.call
        ⟨oneParamModel, firstEntry, "firstEntry", some "tag"⟩ LoggerKind.trains 5).2 =
      Except.ok [LogEvent.reportScalar "tag/grads_firstEntry/w" "" 5
        (PyVal.pyFloat 2)] ∧
    firstEntry ⟨[3]⟩ = 3 ∧ (2 : Rat) ≠ 3 :=
  ⟨rfl, rfl, by decide⟩

/-- C2: the claim says `WeightsHistHandler.__call__` passes the
parameter's value tensor as histogram data; on a parameter with value
`[2]` and gradient `[3]`, the code passes the gradient tensor `[3]`
(`p.grad`), not the value tensor `[2]` (`p.data`).  This evaluates the
embedded code at the failing input. -/
theorem weightsHist_passes_grad_as_hist_data :
    (WeightsHistHandlerS.call ⟨oneParamModel, none⟩ LoggerKind.trains 7).2 =
      Except.ok [LogEvent.addHistogram "weights_w" "" 7 ⟨[3]⟩] ∧
    (⟨[3]⟩ : Tensor) ≠ ⟨[2]⟩ :=
  ⟨rfl, by decide⟩

/-- C3 counterexample: calling `OutputHandler` with a logger of the
wrong type raises a `RuntimeError` — a type mismatch that is a raised
exception, not a silent warning, contradicting the claim. -/
theorem outputHandler_wrong_logger_raises :
    (OutputHandlerS.call ⟨"training"⟩ [] (LoggerKind.other "NeptuneLogger")
        (PyVal.pyInt 0)).2 =
      Except.error (PyError.runtimeError outputWrongLoggerMsg) := rfl

/-- C3 amended: a wrong logger type makes every handler raise its
wrong-logger `RuntimeError`; a non-integer global step makes
`OutputHandler.__call__` raise the `TypeError` (both raised, not
warned); with a correct logger and an integer global step the call
never raises — it succeeds, each non-numeric metric value yielding a
warning event; and a missing `trains` package is re-raised as
`RuntimeError`. -/
theorem outputHandler_error_classification
    (tag : String) (metrics : List (String × PyVal)) (lk : LoggerKind)
    (gs : PyVal) (n gsi : Int) (st : Option Bool) (ciEnv : Option String)
    (h2 : OptimizerParamsHandlerS) (h3 : WeightsScalarHandlerS)
    (h4 : WeightsHistHandlerS) (h5 : GradsScalarHandlerS)
    (h6 : GradsHistHandlerS) :
    (lk ≠ LoggerKind.trains →
      (OutputHandlerS.call ⟨tag⟩ metrics lk gs).2 =
        Except.error (PyError.runtimeError outputWrongLoggerMsg) ∧
      (h2.call lk gsi).2 =
        Except.error (PyError.runtimeError optimizerWrongLoggerMsg) ∧
      (h3.call lk gsi).2 = Except.error (PyError.runtimeError
        "Handler WeightsScalarHandler works only with TrainsLogger") ∧
      (h4.call lk gsi).2 = Except.error (PyError.runtimeError
        "Handler WeightsHistHandler works only with TrainsLogger") ∧
      (h5.call lk gsi).2 = Except.error (PyError.runtimeError
        "Handler GradsScalarHandler works only with TrainsLogger") ∧
      (h6.call lk gsi).2 = Except.error (PyError.runtimeError
        "Handler GradsHistHandler works only with TrainsLogger")) ∧
    ((∀ i : Int, gs ≠ PyVal.pyInt i) →
      (OutputHandlerS.call ⟨tag⟩ metrics LoggerKind.trains gs).2 =
        Except.error (PyError.typeError (gsTypeMsg gs))) ∧
    (OutputHandlerS.call ⟨tag⟩ metrics LoggerKind.trains (PyVal.pyInt n)).2 =
      Except.ok (metrics.map (outEvent tag n)) ∧
    (∀ kv ∈ metrics, kv.2.isNumber = false →
      outEvent tag n kv = LogEvent.warn (outputMetricWarnMsg kv.2)) ∧
    trainsLoggerInit false st ciEnv =
      ([], some (PyError.runtimeError trainsImportMsg)) := by
  refine ⟨?_, ?_, rfl, ?_, rfl⟩
  · intro hlk
    refine ⟨?_, ?_, ?_, ?_, ?_, ?_⟩ <;>
      simp [OutputHandlerS.call, OptimizerParamsHandlerS.call,
        WeightsScalarHandlerS.call, WeightsHistHandlerS.call,
        GradsScalarHandlerS.call, GradsHistHandlerS.call, hlk]
  · intro hgs
    cases gs with
    | pyInt i => exact absurd rfl (hgs i)
    | pyFloat q => rfl
    | pyStr s => rfl
    | pyNone => rfl
    | pyOther t => rfl
  · intro kv hkv hnum
    simp [outEvent, hnum]

/-- C3 amended, witness: the wrong-logger `RuntimeError` is raised at
a non-`TrainsLogger` logger, the `TypeError` is raised at the
non-integer global step `None`, a string-valued metric is warned
without an exception, and the missing-package failure is the
re-raised `RuntimeError`. -/
theorem outputHandler_error_classification_witness :
    (OutputHandlerS.call ⟨"training"⟩ [] (LoggerKind.other "NeptuneLogger")
        (PyVal.pyInt 0)).2 =
      Except.error (PyError.runtimeError outputWrongLoggerMsg) ∧
    (OutputHandlerS.call ⟨"training"⟩ [] LoggerKind.trains PyVal.pyNone).2 =
      Except.error (PyError.typeError (gsTypeMsg PyVal.pyNone)) ∧
    (OutputHandlerS.call ⟨"training"⟩ [("msg", PyVal.pyStr "hi")]
        LoggerKind.trains (PyVal.pyInt 3)).2 =
      Except.ok [LogEvent.warn (outputMetricWarnMsg (PyVal.pyStr "hi"))] ∧
    outEvent "training" 3 ("msg", PyVal.pyStr "hi") =
      LogEvent.warn (outputMetricWarnMsg (PyVal.pyStr "hi")) ∧
    trainsLoggerInit false none none =
      ([], some (PyError.runtimeError trainsImportMsg)) := by
  have ha := outputHandler_error_classification "training" [] (LoggerKind.other "NeptuneLogger")
    (PyVal.pyInt 0) 0 0 none none ⟨⟨[]⟩, "lr", none⟩ ⟨[], firstEntry, "firstEntry", none⟩
    ⟨[], none⟩ ⟨[], firstEntry, "firstEntry", none⟩ ⟨[], none⟩
  have hb := outputHandler_error_classification "training" [] LoggerKind.trains
    PyVal.pyNone 0 0 none none ⟨⟨[]⟩, "lr", none⟩ ⟨[], firstEntry, "firstEntry", none⟩
    ⟨[], none⟩ ⟨[], firstEntry, "firstEntry", none⟩ ⟨[], none⟩
  have hc := outputHandler_error_classification "training" [("msg", PyVal.pyStr "hi")]
    LoggerKind.trains (PyVal.pyInt 3) 3 0 none none ⟨⟨[]⟩, "lr", none⟩
    ⟨[], firstEntry, "firstEntry", none⟩ ⟨[], none⟩
    ⟨[], firstEntry, "firstEntry", none⟩ ⟨[], none⟩
  exact ⟨(ha.1 (by decide)).1,
    hb.2.1 (fun i h => PyVal.noConfusion h),
    hc.2.2.1,
    hc.2.2.2.1 ("msg", PyVal.pyStr "hi") (by decide) (by decide),
    hc.2.2.2.2⟩

/-- C4 counterexample: with `atomic=False` (reachable by constructing
`TrainsSaver(..., atomic=False)`) the call performs the local save and
no artifact upload at all: the trace is exactly the local save. -/
theorem trainsSaver_nonatomic_uploads_nothing :
    trainsSaverCall true false "ckpt" "model.pt" =
      ([SaverAction.localSave "ckpt/model.pt"], none) := by decide

/-- C4 amended: when the saver is atomic (the `DiskSaver` default) and
`trains` imports, `TrainsSaver.__call__` performs the local disk save
first and the artifact upload second, and the upload uses the locally
saved file's path `dirname/filename`. -/
theorem trainsSaver_atomic_saves_then_uploads (dirname filename : String) :
    trainsSaverCall true true dirname filename =
      ([SaverAction.localSave (dirname ++ "/" ++ filename),
        SaverAction.createOutputModel (dirname ++ "/" ++ filename)
          (basenameOf filename)], none) := rfl

/-- C7: with `trains` not importable, `TrainsLogger.__init__` raises
the re-raised `RuntimeError` with an empty action trace (no vendor
session is created), `TrainsSaver.__init__` (on a proper logger)
raises it with an empty trace (no current-task lookup), and
`TrainsSaver.__call__` raises it after the local save but with no
upload in the trace. -/
theorem missing_trains_package_raises
    (st : Option Bool) (ciEnv : Option String)
    (outputUri dirname : Option String) (atomic : Bool) (d f : String) :
    trainsLoggerInit false st ciEnv =
      ([], some (PyError.runtimeError trainsImportMsg)) ∧
    trainsSaverInit true false outputUri dirname =
      ([], some (PyError.runtimeError trainsImportMsg)) ∧
    trainsSaverCall false atomic d f =
      ([SaverAction.localSave (d ++ "/" ++ f)],
        some (PyError.runtimeError trainsImportMsg)) :=
  ⟨rfl, rfl, rfl⟩

/-- C8: every handler is stateless — each `__call__` returns the
handler's fields unchanged (the Python bodies contain no assignment to
`self`); this holds for all six handlers on every input. -/
theorem handlers_are_stateless
    (h1 : OutputHandlerS) (metrics : List (String × PyVal))
    (h2 : OptimizerParamsHandlerS) (h3 : WeightsScalarHandlerS)
    (h4 : WeightsHistHandlerS) (h5 : GradsScalarHandlerS)
    (h6 : GradsHistHandlerS) (lk : LoggerKind) (gs : Int) (gsv : PyVal) :
    (h1.call metrics lk gsv).1 = h1 ∧ (h2.call lk gs).1 = h2 ∧
    (h3.call lk gs).1 = h3 ∧ (h4.call lk gs).1 = h4 ∧
    (h5.call lk gs).1 = h5 ∧ (h6.call lk gs).1 = h6 :=
  ⟨rfl, rfl, rfl, rfl, rfl, rfl⟩

/-- Among the events mapped from a metrics dict with distinct keys,
the entry `(k, v)` with a numeric `v` yields exactly one
`report_scalar` event carrying `(tag, k, gs, v)`. -/
lemma outEvent_count_one (tag : String) (gs : Int) :
    ∀ (l : List (String × PyVal)) (k : String) (v : PyVal),
      (l.map Prod.fst).Nodup → (k, v) ∈ l → v.isNumber = true →
      (l.map (outEvent tag gs)).count (LogEvent.reportScalar tag k gs v) = 1 := by
  intro l
  induction l with
  | nil => intro k v _ hm; cases hm
  | cons a t ih =>
      intro k v hnd hm hv
      rw [List.map_cons, List.nodup_cons] at hnd
      obtain ⟨hka, hndt⟩ := hnd
      rw [List.map_cons, List.count_cons]
      cases hm with
      | head =>
          have hzero :
              (t.map (outEvent tag gs)).count (LogEvent.reportScalar tag k gs v) = 0 := by
            rw [List.count_eq_zero]
            intro hmem
            obtain ⟨kv, hkv, heq⟩ := List.mem_map.mp hmem
            have hk : kv.1 = k := by
              unfold outEvent at heq
              split at heq
              · injection heq
              · cases heq
            have hkm : kv.1 ∈ t.map Prod.fst := List.mem_map_of_mem Prod.fst hkv
            exact hka (hk ▸ hkm)
          simp [outEvent, hv, hzero]
      | tail _ hmt =>
          have hk : k ∈ t.map Prod.fst := List.mem_map_of_mem Prod.fst hmt
          have hak : a.1 ≠ k := fun h => hka (h ▸ hk)
          have hhead : outEvent tag gs a ≠ LogEvent.reportScalar tag k gs v := by
            unfold outEvent
            split
            · intro h; injection h with h1 h2 h3 h4; exact hak h2
            · intro h; cases h
          simp [hhead, ih k v hndt hmt hv]

/-- Among the events mapped from a metrics dict with distinct keys,
the entry `(k, v)` with a non-numeric `v` yields its warning, and no
`report_scalar` event for series `k` appears at all. -/
lemma outEvent_warned_not_reported (tag : String) (gs : Int) :
    ∀ (l : List (String × PyVal)) (k : String) (v : PyVal),
      (l.map Prod.fst).Nodup → (k, v) ∈ l → v.isNumber = false →
      LogEvent.warn (outputMetricWarnMsg v) ∈ l.map (outEvent tag gs) ∧
      ∀ w, LogEvent.reportScalar tag k gs w ∉ l.map (outEvent tag gs) := by
  intro l
  induction l with
  | nil => intro k v _ hm; cases hm
  | cons a t ih =>
      intro k v hnd hm hv
      rw [List.map_cons, List.nodup_cons] at hnd
      obtain ⟨hka, hndt⟩ := hnd
      cases hm with
      | head =>
          refine ⟨by simp [outEvent, hv], ?_⟩
          intro w hmem
          rw [List.map_cons] at hmem
          rcases List.mem_cons.mp hmem with hh | hmem
          · rw [outEvent, hv] at hh
            cases hh
          · obtain ⟨kv, hkv, heq⟩ := List.mem_map.mp hmem
            have hk : kv.1 = k := by
              unfold outEvent at heq
              split at heq
              · injection heq
              · cases heq
            have hkm : kv.1 ∈ t.map Prod.fst := List.mem_map_of_mem Prod.fst hkv
            exact hka (hk ▸ hkm)
      | tail _ hmt =>
          have hk : k ∈ t.map Prod.fst := List.mem_map_of_mem Prod.fst hmt
          have hak : a.1 ≠ k := fun h => hka (h ▸ hk)
          obtain ⟨hw, hnr⟩ := ih k v hndt hmt hv
          refine ⟨List.mem_cons_of_mem _ hw, ?_⟩
          intro w hmem
          rcases List.mem_cons.mp hmem with hh | hmem
          · unfold outEvent at hh
            split at hh
            · injection hh with h1 h2 h3 h4; exact hak h2.symm
            · cases hh
          · exact hnr w hmem

/-- C5: `OutputHandler.__call__` with a `TrainsLogger` and an integer
global step succeeds, and for every entry `(k, v)` of the extracted
metrics dict: a numeric `v` is reported by exactly one `report_scalar`
call with title `tag`, series `k`, iteration `gs` and value `v`; a
non-numeric `v` produces its warning and no `report_scalar` call with
series `k` at all. -/
theorem outputHandler_reports_each_metric
    (tag : String) (metrics : List (String × PyVal)) (gs : Int)
    (k : String) (v : PyVal)
    (hnd : (metrics.map Prod.fst).Nodup) (hmem : (k, v) ∈ metrics) :
    ∃ evs, (OutputHandlerS.call ⟨tag⟩ metrics LoggerKind.trains (PyVal.pyInt gs)).2 =
        Except.ok evs ∧
      (v.isNumber = true → evs.count (LogEvent.reportScalar tag k gs v) = 1) ∧
      (v.isNumber = false →
        LogEvent.warn (outputMetricWarnMsg v) ∈ evs ∧
        ∀ w, LogEvent.reportScalar tag k gs w ∉ evs) := by
  refine ⟨metrics.map (outEvent tag gs), rfl, ?_, ?_⟩
  · intro hv; exact outEvent_count_one tag gs metrics k v hnd hmem hv
  · intro hv; exact outEvent_warned_not_reported tag gs metrics k v hnd hmem hv

/-- C5, witness: a two-entry metrics dict with one numeric and one
string value, checked at the numeric entry. -/
theorem outputHandler_reports_each_metric_witness :
    (([("loss", PyVal.pyFloat 1), ("msg", PyVal.pyStr "hi")].map
        Prod.fst).Nodup ∧ ("loss", PyVal.pyFloat 1) ∈
          [("loss", PyVal.pyFloat 1), ("msg", PyVal.pyStr "hi")]) ∧
    ∃ evs, (OutputHandlerS.call ⟨"training"⟩
        [("loss", PyVal.pyFloat 1), ("msg", PyVal.pyStr "hi")]
        LoggerKind.trains (PyVal.pyInt 3)).2 = Except.ok evs ∧
      ((PyVal.pyFloat 1).isNumber = true →
        evs.count (LogEvent.reportScalar "training" "loss" 3 (PyVal.pyFloat 1)) = 1) ∧
      ((PyVal.pyFloat 1).isNumber = false →
        LogEvent.warn (outputMetricWarnMsg (PyVal.pyFloat 1)) ∈ evs ∧
        ∀ w, LogEvent.reportScalar "training" "loss" 3 w ∉ evs) :=
  ⟨⟨by decide, by decide⟩,
    outputHandler_reports_each_metric "training"
      [("loss", PyVal.pyFloat 1), ("msg", PyVal.pyStr "hi")] 3 "loss"
      (PyVal.pyFloat 1) (by decide) (by decide)⟩

/-- When every parameter group converts, the dict comprehension of
`OptimizerParamsHandler.__call__` evaluates to its list of
`(str(i), float(group[param_name]))` entries. -/
lemma optimizerParamsDict_enumFrom_ok (paramName : String) (vals : ParamGroup → Rat)
    (pgs : List ParamGroup) :
    ∀ n : Nat, (∀ pg ∈ pgs, pyFloatOf pg paramName = Except.ok (vals pg)) →
      exceptMapList
          (fun ipg => (pyFloatOf ipg.2 paramName).map fun q => (toString ipg.1, q))
          (pgs.enumFrom n) =
        Except.ok ((pgs.enumFrom n).map fun ipg => (toString ipg.1, vals ipg.2)) := by
  induction pgs with
  | nil => intro n _; rfl
  | cons pg t ih =>
      intro n hall
      have hpg := hall pg (List.mem_cons_self pg t)
      have ht := ih (n + 1) fun p hp => hall p (List.mem_cons_of_mem pg hp)
      rw [List.enumFrom_cons, List.map_cons, exceptMapList, hpg, ht]
      rfl

/-- C6: `OptimizerParamsHandler.__call__` with a `TrainsLogger`, when
every parameter group maps `param_name` to a convertible value, makes
exactly one `report_scalar` call per group, in order: for the group at
index `i`, with series `str(i)`, value `float(group[param_name])`,
iteration the event's global step, and title `tag + "/" + param_name`
when a tag is set and `param_name` otherwise (`tagPref`). -/
theorem optimizerParams_reports_each_group
    (pgs : List ParamGroup) (paramName : String) (tag : Option String)
    (gs : Int) (vals : ParamGroup → Rat)
    (hall : ∀ pg ∈ pgs, pyFloatOf pg paramName = Except.ok (vals pg)) :
    (OptimizerParamsHandlerS.call ⟨⟨pgs⟩, paramName, tag⟩ LoggerKind.trains gs).2 =
      Except.ok (pgs.enum.map fun ipg =>
        LogEvent.reportScalar (tagPref tag ++ paramName) (toString ipg.1) gs
          (PyVal.pyFloat (vals ipg.2))) := by
  have h := optimizerParamsDict_enumFrom_ok paramName vals pgs 0 hall
  simp only [OptimizerParamsHandlerS.call, optimizerParamsDict, List.enum, h,
    List.map_map]
  rfl

/-- The two-group optimizer used in the C6 witness. -/
def lrGroups : List ParamGroup :=
  [⟨[("lr", PyVal.pyInt 1)]⟩, ⟨[("lr", PyVal.pyInt 2)]⟩]

/-- The converted values of `lrGroups`' learning rates. -/
def lrVals (pg : ParamGroup) : Rat :=
  match pyFloatOf pg "lr" with
  | Except.ok q => q
  | _ => 0

/-- C6, witness: a two-group optimizer with integer learning rates. -/
theorem optimizerParams_reports_each_group_witness :
    (∀ pg ∈ lrGroups, pyFloatOf pg "lr" = Except.ok (lrVals pg)) ∧
    (OptimizerParamsHandlerS.call ⟨⟨lrGroups⟩, "lr", none⟩ LoggerKind.trains 4).2 =
      Except.ok (lrGroups.enum.map fun ipg =>
        LogEvent.reportScalar (tagPref none ++ "lr") (toString ipg.1) 4
          (PyVal.pyFloat (lrVals ipg.2))) :=
  ⟨by decide,
    optimizerParams_reports_each_group lrGroups "lr" none 4 lrVals (by decide)⟩

/-- C9: `bypass_mode()` returns the last value passed to
`set_bypass_mode` when it was called, and otherwise whether `CI` is
set to a non-empty value; when it returns true the constructor warns
and installs the stub task instead of calling `trains.Task.init`; the
stub's attribute lookups return the stub itself except `name` and
`id`, which return the empty string. -/
theorem bypass_mode_spec
    (st : Option Bool) (b : Bool) (ciEnv : Option String) (s : String) (a : String) :
    pyBypassMode (pySetBypassMode st b) ciEnv = b ∧
    pyBypassMode none none = false ∧
    pyBypassMode none (some "") = false ∧
    (s ≠ "" → pyBypassMode none (some s) = true) ∧
    (pyBypassMode st ciEnv = true →
      trainsLoggerInit true st ciEnv =
        ([InitAction.warnBypass, InitAction.stubTask, InitAction.getLogger,
          InitAction.gradHelperInit], none)) ∧
    stubGetattr "name" = StubAttr.strVal "" ∧
    stubGetattr "id" = StubAttr.strVal "" ∧
    (a ≠ "name" → a ≠ "id" → stubGetattr a = StubAttr.stubSelf) := by
  refine ⟨rfl, rfl, rfl, ?_, ?_, rfl, rfl, ?_⟩
  · intro hs; simp [pyBypassMode, hs]
  · intro hb; simp [trainsLoggerInit, hb]
  · intro h1 h2; simp [stubGetattr, h1, h2]

/-- C9, witness: concrete class state, environment and attribute. -/
theorem bypass_mode_spec_witness :
    pyBypassMode (pySetBypassMode (some true) true) none = true ∧
    pyBypassMode none (some "1") = true ∧
    trainsLoggerInit true (some true) none =
      ([InitAction.warnBypass, InitAction.stubTask, InitAction.getLogger,
        InitAction.gradHelperInit], none) ∧
    stubGetattr "foo" = StubAttr.stubSelf := by
  have h := bypass_mode_spec (some true) true none "1" "foo"
  exact ⟨h.1, h.2.2.2.1 (by decide), h.2.2.2.2.1 (by decide),
    h.2.2.2.2.2.2.2 (by decide) (by decide)⟩

/-- Elements rejected by the filter contribute nothing to a
`filterMap` that sends them to `none`. -/
lemma filterMap_eq_filterMap_filter {α β : Type} (f : α → Option β) (p : α → Bool)
    (l : List α) (h : ∀ a, p a = false → f a = none) :
    l.filterMap f = (l.filter p).filterMap f := by
  induction l with
  | nil => rfl
  | cons a t ih =>
      by_cases hp : p a = true
      · rw [List.filter_cons_of_pos hp, List.filterMap_cons, List.filterMap_cons, ih]
      · have hfa := h a (by simpa using hp)
        rw [List.filter_cons_of_neg (by simpa using hp), List.filterMap_cons, hfa, ih]

/-- C10: each of the four weight/gradient handlers skips every
parameter whose `grad` is `None` entirely — its output on a model
equals its output on the model restricted to the parameters that have
a gradient, so nothing is reported for the others (in particular the
weights handlers never log weights of parameters without
gradients). -/
theorem grad_none_params_are_skipped
    (m : List (String × Param)) (red : Tensor → Rat) (rn : String)
    (t1 t2 t3 t4 : Option String) (lk : LoggerKind) (gs : Int) :
    (WeightsScalarHandlerS.call ⟨m, red, rn, t1⟩ lk gs).2 =
      (WeightsScalarHandlerS.call
        ⟨m.filter fun np => np.2.grad.isSome, red, rn, t1⟩ lk gs).2 ∧
    (WeightsHistHandlerS.call ⟨m, t2⟩ lk gs).2 =
      (WeightsHistHandlerS.call
        ⟨m.filter fun np => np.2.grad.isSome, t2⟩ lk gs).2 ∧
    (GradsScalarHandlerS.call ⟨m, red, rn, t3⟩ lk gs).2 =
      (GradsScalarHandlerS.call
        ⟨m.filter fun np => np.2.grad.isSome, red, rn, t3⟩ lk gs).2 ∧
    (GradsHistHandlerS.call ⟨m, t4⟩ lk gs).2 =
      (GradsHistHandlerS.call
        ⟨m.filter fun np => np.2.grad.isSome, t4⟩ lk gs).2 := by
  have hnone : ∀ np : String × Param, (np.2.grad.isSome : Bool) = false →
      np.2.grad = none := by
    intro np h
    cases hg : np.2.grad with
    | none => rfl
    | some g => rw [hg] at h; cases h
  refine ⟨?_, ?_, ?_, ?_⟩ <;>
  · by_cases hlk : lk = LoggerKind.trains
    · subst hlk
      simp only [WeightsScalarHandlerS.call, WeightsHistHandlerS.call,
        GradsScalarHandlerS.call, GradsHistHandlerS.call, ne_eq,
        not_true_eq_false, ite_false, if_neg, not_false_eq_true]
      congr 1
      apply filterMap_eq_filterMap_filter
      intro a ha
      rw [hnone a ha]
    · simp [WeightsScalarHandlerS.call, WeightsHistHandlerS.call,
        GradsScalarHandlerS.call, GradsHistHandlerS.call, hlk]

end IgniteTrains
